import Mathlib

/-!
# Verification of the designer-ci-demo orchestrator core

Shallow embedding of the repository's core logic:

* `src/planner_agent/planner_agent.py` — `MCPTool.__call__` and
  `PlannerAgent.execute_goal` (intent parsing, query/evaluate/decide/mutate
  sequence, error handling);
* `src/planner_agent/approval_store.py` — the file-backed `ApprovalStore`
  (records modelled as a map from id to record, `datetime.now()` passed in
  as an explicit `now` argument);
* `src/planner_agent/approve_action.py` — the CLI operations
  `approve_request` / `reject_request`;
* `src/hybrid_implementation_example.py` — the pure decision helpers
  (`_classify_intent` parameter extraction, `evaluate_responses` average,
  `check_update_needed`).

Modelling conventions:

* Python dicts with optional keys become structures with `Option` fields;
  a `d['k']` access on a missing key raises, modelled in `Except String`
  with the `str(e)` text of the `KeyError` as the error value.
* Python floats are modelled as exact rationals (`ℚ`); all numbers that
  occur in the program are small decimals for which float and rational
  comparison agree.
* The regular expressions of the source are translated to explicit
  scanning functions over `List Char` with Python's leftmost-match,
  greedy-with-backtracking semantics; `\s` and `\d` are modelled at their
  ASCII meaning.
* Each formatted output string of `execute_goal` (an element of its
  `results` list, or a directly returned message) is modelled as a tagged
  `OutLine` constructor carrying the data interpolated into the string.
* Tool endpoints are oracles: a raw behaviour either returns a result
  dict or raises (`Except String ToolResult`); `mcpCall` embeds
  `MCPTool.__call__`, which normalizes any exception to a
  `success = false` result.
-/

/-- ASCII whitespace, the characters matched by Python's regex `\s` class
(modelled at ASCII). -/
def isSp (c : Char) : Bool :=
  c = ' ' || c = '\t' || c = '\n' || c = '\r' || c = '\x0b' || c = '\x0c'

/-- ASCII digit, the characters matched by Python's regex `\d` class
(modelled at ASCII). -/
def isDig (c : Char) : Bool :=
  '0' ≤ c && c ≤ '9'

/-- Numeric value of a digit string, as computed by Python's `int()`. -/
def digitsToNat (ds : List Char) : Nat :=
  ds.foldl (fun n c => 10 * n + (c.toNat - 48)) 0

/-- Match a literal at the head of the input; on success return the rest.
Embeds matching a fixed string inside a regex, or Python's `startswith`. -/
def stripLit : List Char → List Char → Option (List Char)
  | [], cs => some cs
  | _ :: _, [] => none
  | l :: ls, c :: cs => if c = l then stripLit ls cs else none

/-- Match `\s+` (one or more whitespace characters, greedily): require a
nonempty whitespace run and return what follows it. -/
def stripSpaces (cs : List Char) : Option (List Char) :=
  if (cs.takeWhile isSp).isEmpty then none else some (cs.dropWhile isSp)

/-- Python's substring containment test `pat in s`. -/
def hasSub (pat : List Char) : List Char → Bool
  | [] => (stripLit pat []).isSome
  | c :: cs => (stripLit pat (c :: cs)).isSome || hasSub pat cs

/-- Lower-cased character data of a goal string: `goal.lower()` (modelled
at ASCII). -/
def goalLower (goal : String) : List Char :=
  goal.data.map Char.toLower

/-!
## The count pattern

`re.search(r'(\d+)\s+(?:chat|conversation)', goal_lower)` from
`planner_agent.py` line 146 (the same pattern is used by
`_classify_intent` in `hybrid_implementation_example.py` line 50).
-/

/-- Attempt of the count pattern anchored at the head of the input: a
nonempty digit run, then a nonempty whitespace run, then `chat` or
`conversation`.  Backtracking the greedy `\d+`/`\s+` cannot help at a
fixed position (a shorter digit run leaves a digit where whitespace is
required, and a shorter whitespace run leaves whitespace where a letter
is required), so the maximal-run reading is exact. -/
def countMatch (cs : List Char) : Option Nat :=
  let ds := cs.takeWhile isDig
  if ds.isEmpty then none
  else
    let r1 := cs.dropWhile isDig
    if (r1.takeWhile isSp).isEmpty then none
    else
      let r2 := r1.dropWhile isSp
      if (stripLit "chat".data r2).isSome || (stripLit "conversation".data r2).isSome then
        some (digitsToNat ds)
      else none

/-- Leftmost match of the count pattern: `re.search` tries each start
position from the left. -/
def scanCount : List Char → Option Nat
  | [] => none
  | c :: cs =>
    match countMatch (c :: cs) with
    | some n => some n
    | none => scanCount cs

/-- Embeds `limit = int(match.group(1)) if match else 5`
(`planner_agent.py` line 147). -/
def extractLimit (goal : String) : Nat :=
  (scanCount (goalLower goal)).getD 5

/-!
## The custom threshold pattern of the planner

`re.search(r'if\s+(?:any|average|avg)?\s+score\s+(?:is\s+)?(?:below|<)\s+(\d+(?:\.\d+)?)',
goal_lower)` from `planner_agent.py` line 307.
-/

/-- Parse the captured number `(\d+(?:\.\d+)?)` and convert it with
`float()`, modelled as an exact rational. -/
def parseNum (t : List Char) : Option ℚ :=
  let ds := t.takeWhile isDig
  if ds.isEmpty then none
  else
    let r := t.dropWhile isDig
    match r with
    | '.' :: r2 =>
      let fs := r2.takeWhile isDig
      if fs.isEmpty then some (digitsToNat ds : ℚ)
      else some ((digitsToNat ds : ℚ) + (digitsToNat fs : ℚ) / ((10 : ℚ) ^ fs.length))
    | _ => some (digitsToNat ds : ℚ)

/-- Match `\s+(?:any|average|avg)?\s+` (the stretch between `if` and
`score`).  With the optional word present, both `\s+` runs are forced to
the maximal whitespace run before and after the word (the word and
`score` start with non-whitespace).  With the word absent, the two `\s+`
need at least two whitespace characters in total.  The alternatives
`any`/`average`/`avg` are pairwise prefix-incompatible, and none is a
prefix of `score`, so no cross-backtracking between the branches can
occur. -/
def stripIfGap (t : List Char) : Option (List Char) :=
  let k := (t.takeWhile isSp).length
  if k = 0 then none
  else
    let t1 := t.dropWhile isSp
    match stripLit "any".data t1 <|> stripLit "average".data t1 <|> stripLit "avg".data t1 with
    | some t2 =>
      match stripSpaces t2 with
      | some t3 => some t3
      | none => if 2 ≤ k then some t1 else none
    | none => if 2 ≤ k then some t1 else none

/-- Match `(?:is\s+)?` before `below|<`.  `is` and `below`/`<` are
prefix-incompatible, so if `is` matches but no whitespace follows it, the
empty alternative cannot succeed either and the match fails. -/
def stripIsOpt (t : List Char) : Option (List Char) :=
  match stripLit "is".data t with
  | some t1 => stripSpaces t1
  | none => some t

/-- Attempt of the planner's custom threshold pattern anchored at the head
of the input. -/
def thresholdMatch (cs : List Char) : Option ℚ := do
  let t1 ← stripLit "if".data cs
  let t3 ← stripIfGap t1
  let t4 ← stripLit "score".data t3
  let t5 ← stripSpaces t4
  let t6 ← stripIsOpt t5
  let t7 ← stripLit "below".data t6 <|> stripLit "<".data t6
  let t8 ← stripSpaces t7
  parseNum t8

/-- Leftmost match of the planner's custom threshold pattern. -/
def scanThreshold : List Char → Option ℚ
  | [] => none
  | c :: cs =>
    match thresholdMatch (c :: cs) with
    | some q => some q
    | none => scanThreshold cs

/-!
## The hybrid example's threshold pattern

`re.search(r'(?:score|scores)\s+(?:is|are)\s+(?:below|under|less than)\s+(\d+(?:\.\d+)?)',
goal_lower)` from `hybrid_implementation_example.py` line 57.
-/

/-- Tail of the hybrid pattern after the `score`/`scores` alternative.
The alternatives `is`/`are` and `below`/`under`/`less than` are pairwise
prefix-incompatible, so trying them in order is exact. -/
def hybridTail (t : List Char) : Option ℚ := do
  let t1 ← stripSpaces t
  let t2 ← stripLit "is".data t1 <|> stripLit "are".data t1
  let t3 ← stripSpaces t2
  let t4 ← stripLit "below".data t3 <|> stripLit "under".data t3 <|> stripLit "less than".data t3
  let t5 ← stripSpaces t4
  parseNum t5

/-- Attempt of the hybrid threshold pattern anchored at the head.  The
alternation `(?:score|scores)` backtracks across the whole continuation:
`score` is tried first and, if the rest of the pattern fails, `scores` is
tried. -/
def hybridThresholdMatch (cs : List Char) : Option ℚ :=
  match stripLit "score".data cs with
  | some t =>
    match hybridTail t with
    | some q => some q
    | none =>
      match stripLit "scores".data cs with
      | some t2 => hybridTail t2
      | none => none
  | none => none

/-- Leftmost match of the hybrid threshold pattern. -/
def scanHybridThreshold : List Char → Option ℚ
  | [] => none
  | c :: cs =>
    match hybridThresholdMatch (c :: cs) with
    | some q => some q
    | none => scanHybridThreshold cs

/-!
## Data model of the orchestrator run
-/

/-- A conversation record as delivered by the query tool: a JSON dict
whose keys may be missing, hence `Option` fields.  A `conv['k']` access
on a missing key raises `KeyError`. -/
structure PyConv where
  id : Option String
  user_message : Option String
  bot_response : Option String
  timestamp : Option String
deriving DecidableEq, Repr

/-- The result dict of a tool invocation, with the union of the keys the
orchestrator reads via `.get`: missing keys become the field defaults
(`.get('success')` is falsy when absent, `.get('conversations', [])`
defaults to the empty list, the remaining `.get` calls default to
`None`). -/
structure ToolResult where
  success : Bool := false
  error : Option String := none
  conversations : List PyConv := []
  score : Option Int := none
  comment : Option String := none
  pr_url : Option String := none
deriving DecidableEq, Repr

/-- The `reason` string passed to `submit_prompt_update`, tagged by its
two formats in the source: the literal
`"Manual prompt update requested"` (direct path), and the automated
format string carrying the average score and the count of scores below 3
(`planner_agent.py` line 349). -/
inductive Reason
  | manual
  | automated (avg : ℚ) (below3 : Nat)
deriving DecidableEq, Repr

/-- One remote tool invocation performed during a run, with its
arguments.  The orchestrator of `planner_agent.py` performs no approval
store operation of any kind, so tool invocations are the only
side-effecting events of a run. -/
inductive Event
  | queryCall (limit : Nat)
  | evalCall (question answer : String)
  | githubCall (prompt_text : String) (reason : Reason)
deriving DecidableEq, Repr

/-- One line of the textual output of `execute_goal` (an element of its
`results` list or a directly returned message), tagged by the format
string that produces it in the source and carrying the interpolated
data. -/
inductive OutLine
  | retrieved (n : Nat)
  | convHeader (id timestamp : String)
  | convQ (q : String)
  | convA (a : String)
  | convBlank
  | evalHeader
  | avgLine (avg : ℚ)
  | scoreLine (id : String) (score : Option Int)
  | commentLine (comment : String)
  | prCreated (url : Option String)
  | prCreateError (err : Option String)
  | scoresGood
  | errorFetching (err : Option String)
  | goalError (msg : String)
deriving DecidableEq, Repr

/-- The outcome of one `execute_goal` run: the content of the returned
string (as tagged lines) and the ordered trace of tool invocations. -/
structure RunResult where
  ret : List OutLine
  events : List Event
deriving DecidableEq, Repr

/-- The raw behaviours of the three remote endpoints: each call either
returns a result dict or raises (modelled in `Except String`, the error
being `str(e)`). -/
structure ToolBehaviors where
  query_conversations : Nat → Except String ToolResult
  evaluate_response : String → String → Except String ToolResult
  submit_prompt_update : String → Reason → Except String ToolResult

/-- Embeds `MCPTool.__call__` (`planner_agent.py` lines 37-71): any
exception raised while invoking the endpoint is caught and normalized to
a failure dict with the message `Error calling <name>: <exception>`. -/
def mcpCall (raw : Except String ToolResult) (toolName : String) : ToolResult :=
  match raw with
  | .ok r => r
  | .error e => { success := false, error := some ("Error calling " ++ toolName ++ ": " ++ e) }

/-- Python truthiness of an optional string: `None` and `""` are falsy. -/
def truthy : Option String → Bool
  | none => false
  | some s => !(s = "")

/-- Python's `a or b` on optional strings (`custom_prompt_override or
self.custom_prompt`, line 152). -/
def pyOr (a b : Option String) : Option String :=
  if truthy a then a else b

/-- The default prompt text used when no custom prompt is supplied
(`planner_agent.py` lines 175-185 and 337-347, identical text). -/
def DEFAULT_PROMPT : String :=
  "You are a helpful AI assistant focused on providing accurate, complete, and clear responses.\n\nGuidelines:\n- Provide comprehensive answers that fully address the user\x27s question\n- Use clear, easy-to-understand language\n- Include relevant examples when helpful\n- Be accurate and factual\n- Structure responses logically\n- Anticipate follow-up questions\n\nAlways aim to be helpful, informative, and user-friendly."

/-- The prompt text submitted with a PR: the effective custom prompt when
truthy, else the default (the identical selection logic at lines 170-185
and 332-347). -/
def prompt_of (custom_prompt_override custom_prompt : Option String) : String :=
  let ecp := pyOr custom_prompt_override custom_prompt
  if truthy ecp then ecp.getD "" else DEFAULT_PROMPT

/-- The display-keyword test of line 227: `any(keyword in goal_lower for
keyword in ['get', 'show', 'list', 'display'])`. -/
def hasDispKw (g : List Char) : Bool :=
  hasSub "get".data g || hasSub "show".data g || hasSub "list".data g || hasSub "display".data g

/-- The evaluation-keyword test of line 243: `'review' in goal_lower or
'evaluate' in goal_lower or 'check' in goal_lower`. -/
def hasReviewKw (g : List Char) : Bool :=
  hasSub "review".data g || hasSub "evaluate".data g || hasSub "check".data g

/-- The direct-PR classification of lines 155-162: an update/create-pr
phrase present and none of `review`, `evaluate`, `get`, `show`, `list`
(note: `display` and `check` are not excluded here). -/
def is_direct_pr (g : List Char) : Bool :=
  (hasSub "update prompt".data g || hasSub "create pr".data g)
    && !hasSub "review".data g && !hasSub "evaluate".data g
    && !hasSub "get".data g && !hasSub "show".data g && !hasSub "list".data g

/-- Text of the `KeyError` raised by a `d['k']` access on a missing key:
`str(KeyError('k'))` is the quoted key name. -/
def keyErr (field : String) : String :=
  "\x27" ++ field ++ "\x27"

/-- Dict access `conv[field]`: the value, or a raised `KeyError`. -/
def getKey (field : String) (v : Option String) : Except String String :=
  match v with
  | some s => .ok s
  | none => .error (keyErr field)

/-- The conversation display loop of lines 230-240, run when a display
keyword is present: four lines per conversation, raising `KeyError` on a
missing field (which aborts the whole run via the outer handler). -/
def convLines : List PyConv → Except String (List OutLine)
  | [] => .ok []
  | c :: rest => do
    let i ← getKey "id" c.id
    let ts ← getKey "timestamp" c.timestamp
    let q ← getKey "user_message" c.user_message
    let a ← getKey "bot_response" c.bot_response
    let ls ← convLines rest
    pure (OutLine.convHeader i ts :: OutLine.convQ q :: OutLine.convA a :: OutLine.convBlank :: ls)

/-- One evaluation record appended to the `evaluations` list
(line 269-273). -/
structure EvalRec where
  id : String
  score : Option Int
  comment : Option String
deriving DecidableEq, Repr

/-- The normalized result of one evaluate-tool call. -/
def evalRes (T : ToolBehaviors) (q a : String) : ToolResult :=
  mcpCall (T.evaluate_response q a) "evaluate_response"

/-- The per-conversation evaluation loop of lines 253-279 (with
`stream = False`, the transcript-returning mode used by the CLI entry
point): each conversation is evaluated in order; on a successful result
its score and record are collected; on a failure result nothing at all
is recorded for that conversation and the loop continues.  A missing
dict key raises, aborting the run.  Returns the trace of evaluate calls
together with either the raised error or the collected
`(scores, evaluations)` lists. -/
def evalLoop (T : ToolBehaviors) : List PyConv → List Event × Except String (List (Option Int) × List EvalRec)
  | [] => ([], .ok ([], []))
  | c :: rest =>
    match c.user_message with
    | none => ([], .error (keyErr "user_message"))
    | some q =>
      match c.bot_response with
      | none => ([], .error (keyErr "bot_response"))
      | some a =>
        let r := evalRes T q a
        if r.success then
          match c.id with
          | none => ([Event.evalCall q a], .error (keyErr "id"))
          | some cid =>
            match evalLoop T rest with
            | (evs, .ok (scores, recs)) =>
              (Event.evalCall q a :: evs, .ok (r.score :: scores, ⟨cid, r.score, r.comment⟩ :: recs))
            | (evs, .error e) => (Event.evalCall q a :: evs, .error e)
        else
          match evalLoop T rest with
          | (evs, res) => (Event.evalCall q a :: evs, res)

/-- Python's `sum(scores)` over the collected score values: raises
`TypeError` when a collected score is `None` (an evaluate result that
succeeded without a `score` key). -/
def sumScores : List (Option Int) → Except String Int
  | [] => .ok 0
  | none :: _ => .error "unsupported operand type(s) for +: \x27int\x27 and \x27NoneType\x27"
  | some s :: rest =>
    match sumScores rest with
    | .ok t => .ok (s + t)
    | .error e => .error e

/-- The individual-score display loop of lines 295-299: a score line and
a comment line per evaluation, the comment truncated to 100 characters;
slicing a `None` comment raises `TypeError`. -/
def evalLines : List EvalRec → Except String (List OutLine)
  | [] => .ok []
  | r :: rest =>
    match r.comment with
    | none => .error "\x27NoneType\x27 object is not subscriptable"
    | some c =>
      match evalLines rest with
      | .ok ls => .ok (OutLine.scoreLine r.id r.score :: OutLine.commentLine (c.take 100) :: ls)
      | .error e => .error e

/-- Python comparison `score < custom_threshold` for a collected score
(all scores are ints on the paths where this is evaluated). -/
def optLtQ (s : Option Int) (t : ℚ) : Bool :=
  match s with
  | some v => decide ((v : ℚ) < t)
  | none => false

/-- Python comparison `s < 3` used in the below-3 count of the automated
reason string. -/
def optLt3 (s : Option Int) : Bool :=
  match s with
  | some v => decide (v < 3)
  | none => false

/-- The default create-PR decision of lines 317-322: average below 3.5,
or one of the explicit mutation phrases in the goal. -/
def defaultDecision (g : List Char) (avg : ℚ) : Bool :=
  decide (avg < (7 : ℚ) / 2) || hasSub "update prompt".data g
    || hasSub "create pr".data g || hasSub "pull request".data g

/-- The full create-PR decision of lines 306-322: when the custom
threshold pattern matched a truthy (nonzero) number and some score is
below it, the decision is `True`; otherwise the default decision
applies. -/
def should_create_pr_of (g : List Char) (scores : List (Option Int)) (avg : ℚ) : Bool :=
  match scanThreshold g with
  | some t =>
    if decide (t ≠ 0) && scores.any (fun s => optLtQ s t) then true
    else defaultDecision g avg
  | none => defaultDecision g avg

/-- Embedding of `PlannerAgent.execute_goal` (`planner_agent.py` lines
132-380) in the transcript-returning mode (`stream = False`).  The
outer `try/except` of lines 140/374-380 is the mapping of every raised
error `e` to the single returned line `goalError e` (rendered as
`Error executing goal: <e>`); side effects performed before the raise
remain in the event trace. -/
def execute_goal (T : ToolBehaviors) (goal : String)
    (custom_prompt : Option String) (custom_prompt_override : Option String) : RunResult :=
  let g := goalLower goal
  let limit := extractLimit goal
  let prompt_text := prompt_of custom_prompt_override custom_prompt
  if is_direct_pr g then
    let pr := mcpCall (T.submit_prompt_update prompt_text Reason.manual) "submit_prompt_update"
    if pr.success then
      ⟨[OutLine.prCreated pr.pr_url], [Event.githubCall prompt_text Reason.manual]⟩
    else
      ⟨[OutLine.prCreateError pr.error], [Event.githubCall prompt_text Reason.manual]⟩
  else
    let qr := mcpCall (T.query_conversations limit) "query_conversations"
    if !qr.success then
      ⟨[OutLine.errorFetching qr.error], [Event.queryCall limit]⟩
    else
      let convs := qr.conversations
      match (if hasDispKw g then convLines convs else Except.ok []) with
      | .error e => ⟨[OutLine.goalError e], [Event.queryCall limit]⟩
      | .ok dls =>
        if hasReviewKw g then
          match evalLoop T convs with
          | (evts, .error e) => ⟨[OutLine.goalError e], Event.queryCall limit :: evts⟩
          | (evts, .ok (scores, evals)) =>
            if scores.isEmpty then
              ⟨OutLine.retrieved convs.length :: dls, Event.queryCall limit :: evts⟩
            else
              match sumScores scores with
              | .error e => ⟨[OutLine.goalError e], Event.queryCall limit :: evts⟩
              | .ok total =>
                let avg : ℚ := (total : ℚ) / (scores.length : ℚ)
                match evalLines evals with
                | .error e => ⟨[OutLine.goalError e], Event.queryCall limit :: evts⟩
                | .ok els =>
                  if should_create_pr_of g scores avg then
                    let reason := Reason.automated avg (scores.filter optLt3).length
                    let pr := mcpCall (T.submit_prompt_update prompt_text reason) "submit_prompt_update"
                    let prLine := if pr.success then OutLine.prCreated pr.pr_url
                                  else OutLine.prCreateError pr.error
                    ⟨OutLine.retrieved convs.length :: dls
                       ++ OutLine.evalHeader :: OutLine.avgLine avg :: els ++ [prLine],
                     Event.queryCall limit :: evts ++ [Event.githubCall prompt_text reason]⟩
                  else
                    ⟨OutLine.retrieved convs.length :: dls
                       ++ OutLine.evalHeader :: OutLine.avgLine avg :: els ++ [OutLine.scoresGood],
                     Event.queryCall limit :: evts⟩
        else
          ⟨OutLine.retrieved convs.length :: dls, [Event.queryCall limit]⟩

/-!
## The Approval Store (`approval_store.py`) and Approval CLI (`approve_action.py`)

The file-per-record directory is modelled as a map from request id to
record; `datetime.now().isoformat()` is passed in as an explicit `now`
argument.  The stored dicts also carry pass-through payload keys
(`action`, `prompt_text`, `reason`) that the store code never reads or
branches on; they are omitted from the record model.
-/

/-- A persisted approval request record.  `create_request` writes `id`,
`status` and `created_at`; the remaining keys appear only after later
updates, and reads of them in the source go through `.get` with a
default (`processed` defaults to `False`). -/
structure ApprovalRequest where
  id : String
  status : String
  created_at : String
  updated_at : Option String := none
  notes : Option String := none
  processed : Bool := false
  processed_at : Option String := none
deriving DecidableEq, Repr

/-- The record set of the approval store, keyed by request id. -/
abbrev Store := String → Option ApprovalRequest

/-- Embeds `ApprovalStore.create_request` (lines 18-37): the generated id
(`req_<time>_<uuid>`) is passed in.  The new record gets
`status = "pending"` and the creation timestamp. -/
def create_request (st : Store) (new_id : String) (now : String) : Store × String :=
  (fun k => if k = new_id then some { id := new_id, status := "pending", created_at := now } else st k,
   new_id)

/-- Embeds `ApprovalStore.get_request` (lines 39-53). -/
def get_request (st : Store) (request_id : String) : Option ApprovalRequest :=
  st request_id

/-- Embeds `ApprovalStore.update_request` (lines 55-84): if the record
file exists, its `status` is overwritten with the given value — whatever
the current status is — `updated_at` is refreshed, truthy notes are
stored, and `True` is returned; only a missing record returns `False`.
There is no check of the current status. -/
def update_request (st : Store) (request_id status : String) (notes : Option String)
    (now : String) : Store × Bool :=
  match st request_id with
  | none => (st, false)
  | some r =>
    let r1 := { r with status := status, updated_at := some now }
    let r2 := if truthy notes then { r1 with notes := notes } else r1
    (fun k => if k = request_id then some r2 else st k, true)

/-- Embeds `ApprovalStore.mark_as_processed` (lines 125-149): if the
record file exists, `processed` is set to `true` and `processed_at`
refreshed, returning `True` — regardless of the current status and of
whether the record was already processed; only a missing record returns
`False`. -/
def mark_as_processed (st : Store) (request_id : String) (now : String) : Store × Bool :=
  match st request_id with
  | none => (st, false)
  | some r =>
    (fun k => if k = request_id then some { r with processed := true, processed_at := some now } else st k,
     true)

/-- Embeds the CLI `approve_request` (`approve_action.py` lines 39-63):
a missing record or a record whose status is not `pending` fails without
touching the store; otherwise the store-level update to `approved` is
performed. -/
def approve_request (st : Store) (request_id : String) (notes : Option String)
    (now : String) : Store × Bool :=
  match get_request st request_id with
  | none => (st, false)
  | some r =>
    if r.status ≠ "pending" then (st, false)
    else update_request st request_id "approved" notes now

/-- Embeds the CLI `reject_request` (`approve_action.py` lines 65-87),
identical to `approve_request` with target status `rejected`. -/
def reject_request (st : Store) (request_id : String) (notes : Option String)
    (now : String) : Store × Bool :=
  match get_request st request_id with
  | none => (st, false)
  | some r =>
    if r.status ≠ "pending" then (st, false)
    else update_request st request_id "rejected" notes now

/-!
## The hybrid example's pure decision helpers
(`hybrid_implementation_example.py`)
-/

/-- Embeds `check_update_needed` (lines 163-172): `true` stands for the
`"needs_update"` branch.  The state reads go through `.get` with
defaults `0`, `3.0` and `False`. -/
def check_update_needed (average_score : Option ℚ) (score_threshold : Option ℚ)
    (update_required : Option Bool) : Bool :=
  decide (average_score.getD 0 < score_threshold.getD 3) || update_required.getD false

/-- The aggregation of `evaluate_responses` (line 154):
`total_score / len(conversations) if conversations else 0`, over the one
score per conversation. -/
def hybrid_average (scores : List Int) : ℚ :=
  if scores.isEmpty then 0 else (scores.sum : ℚ) / (scores.length : ℚ)

/-- The parameter extraction of `_classify_intent` (lines 46-61):
conversation count (same pattern as the planner) and score threshold
(default `3.0`). -/
def hybrid_params (g : List Char) : Nat × ℚ :=
  ((scanCount g).getD 5, (scanHybridThreshold g).getD 3)

/-- The intent classification of `_classify_intent` (lines 63-72). -/
def hybrid_intent (g : List Char) : String :=
  if hasSub "review".data g || hasSub "evaluate".data g || hasSub "check".data g then
    if hasSub "update".data g || hasSub "improve".data g || hasSub "create pr".data g then
      "review_and_update"
    else "review_only"
  else if hasSub "update prompt".data g || hasSub "create pr".data g then "direct_update"
  else "unknown"

/-!
## Store fixtures used by the counterexamples and witnesses
-/

/-- A record that has already been rejected. -/
def reqRejected : ApprovalRequest :=
  { id := "req_1", status := "rejected", created_at := "t0" }

/-- A store holding only `reqRejected`. -/
def stRejected : Store :=
  fun k => if k = "req_1" then some reqRejected else none

/-- A record still pending. -/
def reqPending : ApprovalRequest :=
  { id := "req_2", status := "pending", created_at := "t0" }

/-- A store holding only `reqPending`. -/
def stPending : Store :=
  fun k => if k = "req_2" then some reqPending else none

/-- A record that has been approved and not yet processed. -/
def reqApproved : ApprovalRequest :=
  { id := "req_3", status := "approved", created_at := "t0" }

/-- A store holding only `reqApproved`. -/
def stApproved : Store :=
  fun k => if k = "req_3" then some reqApproved else none

/-- Claim C2, counterexample.  The claim states that for every stored
record whose status is not `pending`, `updateStatus` fails with
`InvalidTransition` and leaves the record unchanged.  On a record whose
status is `rejected`, the store-level `update_request` instead returns
success and overwrites the status with `approved`: the store layer
performs no status check at all. -/
theorem c2_counterexample :
    (update_request stRejected "req_1" "approved" none "t1").2 = true ∧
    ((update_request stRejected "req_1" "approved" none "t1").1 "req_1") =
      some { id := "req_1", status := "approved", created_at := "t0", updated_at := some "t1" } :=
  ⟨rfl, rfl⟩

/-- Claim C2, amended: the pending-status precondition is enforced only
in the CLI layer.  `approve_request` and `reject_request` on an existing
record whose status is not `pending` return failure and leave the store
unchanged; on a pending record they succeed and move the status to
`approved` (resp. `rejected`).  The store-level `update_request` itself
performs no such check. -/
theorem c2_pending_gate_in_cli (st : Store) (request_id : String) (notes : Option String)
    (now : String) (r : ApprovalRequest) (hr : st request_id = some r) :
    (r.status ≠ "pending" →
      approve_request st request_id notes now = (st, false) ∧
      reject_request st request_id notes now = (st, false)) ∧
    (r.status = "pending" →
      (approve_request st request_id notes now).2 = true ∧
      ((approve_request st request_id notes now).1 request_id).map ApprovalRequest.status =
        some "approved" ∧
      (reject_request st request_id notes now).2 = true ∧
      ((reject_request st request_id notes now).1 request_id).map ApprovalRequest.status =
        some "rejected") := by
  constructor
  · intro hs
    constructor <;> simp [approve_request, reject_request, get_request, hr, hs]
  · intro hs
    have hupd : ∀ status, ((update_request st request_id status notes now).1 request_id).map
        ApprovalRequest.status = some status := by
      intro status
      cases htn : truthy notes <;> simp [update_request, hr, htn]
    have hupd2 : ∀ status, (update_request st request_id status notes now).2 = true := by
      intro status
      simp [update_request, hr]
    refine ⟨?_, ?_, ?_, ?_⟩ <;> simp [approve_request, reject_request, get_request, hr, hs] <;>
      first
        | exact hupd2 _
        | simpa using hupd _

/-- Claim C2, witness: the amended theorem applied at the rejected and
the pending fixture. -/
theorem c2_witness :
    (approve_request stRejected "req_1" none "t1" = (stRejected, false) ∧
     reject_request stRejected "req_1" none "t1" = (stRejected, false)) ∧
    ((approve_request stPending "req_2" none "t1").1 "req_2").map ApprovalRequest.status =
      some "approved" :=
  ⟨(c2_pending_gate_in_cli stRejected "req_1" none "t1" reqRejected rfl).1 (by decide),
   (((c2_pending_gate_in_cli stPending "req_2" none "t1" reqPending rfl).2 rfl).2.1)⟩

/-- Claim C3, counterexample.  The claim states that a second
`markProcessed` on the same request, or a call on a request whose status
is not `approved`, fails with `InvalidTransition`.  In the code,
`mark_as_processed` succeeds both times on an approved request, and also
succeeds on a still-pending request: it performs no status or
already-processed check. -/
theorem c3_counterexample :
    (mark_as_processed stApproved "req_3" "t1").2 = true ∧
    (mark_as_processed (mark_as_processed stApproved "req_3" "t1").1 "req_3" "t2").2 = true ∧
    (mark_as_processed stPending "req_2" "t1").2 = true :=
  ⟨rfl, rfl, rfl⟩

/-- Claim C3, amended: `mark_as_processed` succeeds on every existing
record — regardless of its status and of whether it was already
processed — setting `processed := true` and refreshing `processed_at`;
it fails only when the id is unknown (a `NotFound`-style `False`, not an
`InvalidTransition`). -/
theorem c3_mark_as_processed_unconditional (st : Store) (request_id now : String) :
    (∀ r, st request_id = some r →
      mark_as_processed st request_id now =
        (fun k => if k = request_id then
            some { r with processed := true, processed_at := some now }
          else st k, true)) ∧
    (st request_id = none → mark_as_processed st request_id now = (st, false)) := by
  constructor
  · intro r hr
    simp [mark_as_processed, hr]
  · intro hr
    simp [mark_as_processed, hr]

/-- Claim C3, witness: the amended theorem applied at the approved
fixture. -/
theorem c3_witness :
    mark_as_processed stApproved "req_3" "t1" =
      (fun k => if k = "req_3" then
          some { reqApproved with processed := true, processed_at := some "t1" }
        else stApproved k, true) :=
  (c3_mark_as_processed_unconditional stApproved "req_3" "t1").1 reqApproved rfl

/-!
## Orchestrator fixtures
-/

/-- Tools whose mutation endpoint succeeds with a fixed PR URL. -/
def Tg : ToolBehaviors where
  query_conversations := fun _ => .ok {}
  evaluate_response := fun _ _ => .ok {}
  submit_prompt_update := fun _ _ => .ok { success := true, pr_url := some "https://github.example/pr/1" }

/-- Claim C1, counterexample.  The claim states that on a
`DirectMutate`-classified goal the orchestrator never invokes
`submit_prompt_update` within the run and instead creates a pending
`ApprovalRequest`.  On the goal `"create pr"` the run consists of
exactly one event: a direct `submit_prompt_update` invocation.  The
orchestrator of `planner_agent.py` performs no approval store operation
at all (the embedded run has no store access and its event type records
every side effect of the source). -/
theorem c1_counterexample :
    execute_goal Tg "create pr" none none =
      ⟨[OutLine.prCreated (some "https://github.example/pr/1")],
       [Event.githubCall DEFAULT_PROMPT Reason.manual]⟩ :=
  rfl

/-- Claim C1, amended: for every goal classified as a direct PR request
the orchestrator invokes the mutating tool `submit_prompt_update`
directly within the same run — its event trace is exactly that one
invocation, so no approval request is created and no waiting status is
returned; the approval store is operated only by the separate CLI. -/
theorem c1_direct_mutation_in_run (T : ToolBehaviors) (goal : String)
    (custom_prompt custom_prompt_override : Option String)
    (h : is_direct_pr (goalLower goal) = true) :
    (execute_goal T goal custom_prompt custom_prompt_override).events =
      [Event.githubCall (prompt_of custom_prompt_override custom_prompt) Reason.manual] := by
  simp only [execute_goal, h, if_true]
  split <;> rfl

/-- Claim C1, witness: the amended theorem applied at the goal
`"create pr"` with a custom prompt override. -/
theorem c1_witness :
    (execute_goal Tg "create pr" none (some "my prompt")).events =
      [Event.githubCall "my prompt" Reason.manual] :=
  c1_direct_mutation_in_run Tg "create pr" none (some "my prompt") rfl

/-- Claim C9: if the query tool call of a run returns a failure result,
the run returns only the fetch-error line (rendered as
`Error fetching conversations: <err>`) and its event trace is exactly
the one query invocation — no evaluation call, no mutation call and (as
the orchestrator never touches the approval store) no approval-request
creation happens in that run. -/
theorem c9_query_failure_aborts_run (T : ToolBehaviors) (goal : String)
    (custom_prompt custom_prompt_override : Option String)
    (hnd : is_direct_pr (goalLower goal) = false)
    (hq : (mcpCall (T.query_conversations (extractLimit goal)) "query_conversations").success = false) :
    execute_goal T goal custom_prompt custom_prompt_override =
      ⟨[OutLine.errorFetching
          (mcpCall (T.query_conversations (extractLimit goal)) "query_conversations").error],
       [Event.queryCall (extractLimit goal)]⟩ := by
  simp [execute_goal, hnd, hq]

/-- Tools whose query endpoint returns a failure result. -/
def T9 : ToolBehaviors where
  query_conversations := fun _ => .ok { success := false, error := some "Connection refused" }
  evaluate_response := fun _ _ => .ok { success := true, score := some 4, comment := some "good" }
  submit_prompt_update := fun _ _ => .ok { success := true, pr_url := some "u" }

/-- Claim C9, witness: the theorem applied at a review goal whose query
tool fails. -/
theorem c9_witness :
    execute_goal T9 "review 2 chats" none none =
      ⟨[OutLine.errorFetching (some "Connection refused")], [Event.queryCall 2]⟩ :=
  c9_query_failure_aborts_run T9 "review 2 chats" none none rfl rfl

/-- Tools all of whose endpoints raise. -/
def Traise : ToolBehaviors where
  query_conversations := fun _ => .error "URLError(timeout)"
  evaluate_response := fun _ _ => .error "URLError(timeout)"
  submit_prompt_update := fun _ _ => .error "URLError(timeout)"

/-- Claim C10: `execute_goal` is total over every tool behaviour,
including raising ones, and never propagates an exception.
Part 1: an exception raised inside a tool invocation is normalized by
`MCPTool.__call__` to a `success = false` result carrying the message
`Error calling <tool>: <exception>`.
Part 2: consequently a raising query endpoint does not abort the run
abnormally — the run returns the fetch-error line built from the
normalized failure result.
Part 3: an exception raised inside the run body itself (here a
`KeyError` from a conversation record with no `user_message` key) is
caught by the outer handler and returned as the
`Error executing goal: <e>` message. -/
theorem c10_total_error_handling :
    (∀ toolName msg, mcpCall (.error msg) toolName =
      { success := false, error := some ("Error calling " ++ toolName ++ ": " ++ msg) }) ∧
    (∀ (T : ToolBehaviors) (goal msg : String),
      is_direct_pr (goalLower goal) = false →
      T.query_conversations (extractLimit goal) = .error msg →
      execute_goal T goal none none =
        ⟨[OutLine.errorFetching (some ("Error calling query_conversations: " ++ msg))],
         [Event.queryCall (extractLimit goal)]⟩) ∧
    (∀ (T : ToolBehaviors) (goal : String) (rest : List PyConv) (qr : ToolResult),
      is_direct_pr (goalLower goal) = false →
      hasDispKw (goalLower goal) = false →
      hasReviewKw (goalLower goal) = true →
      T.query_conversations (extractLimit goal) = .ok qr →
      qr.success = true →
      qr.conversations = (⟨some "c0", none, some "a0", some "t0"⟩ : PyConv) :: rest →
      execute_goal T goal none none =
        ⟨[OutLine.goalError (keyErr "user_message")], [Event.queryCall (extractLimit goal)]⟩) := by
  refine ⟨fun toolName msg => rfl, ?_, ?_⟩
  · intro T goal msg hnd hq
    simp [execute_goal, hnd, hq, mcpCall]
  · intro T goal rest qr hnd hdisp hrev hq hqs hconvs
    simp [execute_goal, hnd, hdisp, hrev, hq, hqs, hconvs, mcpCall, evalLoop]

/-- Tools whose query endpoint returns a malformed conversation record
(no `user_message` key). -/
def Tbad : ToolBehaviors where
  query_conversations := fun _ =>
    .ok { success := true, conversations := [⟨some "c0", none, some "a0", some "t0"⟩] }
  evaluate_response := fun _ _ => .ok { success := true, score := some 4, comment := some "good" }
  submit_prompt_update := fun _ _ => .ok { success := true, pr_url := some "u" }

/-- Claim C10, witness: the three parts applied at concrete inputs — a
raising mutation endpoint, a raising query endpoint on a review goal,
and a malformed conversation record on a review goal. -/
theorem c10_witness :
    mcpCall (.error "boom") "submit_prompt_update" =
      { success := false, error := some "Error calling submit_prompt_update: boom" } ∧
    execute_goal Traise "review 2 chats" none none =
      ⟨[OutLine.errorFetching (some "Error calling query_conversations: URLError(timeout)")],
       [Event.queryCall 2]⟩ ∧
    execute_goal Tbad "review 2 chats" none none =
      ⟨[OutLine.goalError (keyErr "user_message")], [Event.queryCall 2]⟩ :=
  ⟨c10_total_error_handling.1 "submit_prompt_update" "boom",
   c10_total_error_handling.2.1 Traise "review 2 chats" "URLError(timeout)" rfl rfl,
   c10_total_error_handling.2.2 Tbad "review 2 chats" []
     { success := true, conversations := [⟨some "c0", none, some "a0", some "t0"⟩] }
     rfl rfl rfl rfl rfl rfl⟩

/-!
## Characterization of the evaluation/decision path
-/

/-- The question passed to the evaluate tool for a conversation
(`conv['user_message']`, total via a default for statement purposes; the
run itself raises on a missing key). -/
def qOf (c : PyConv) : String := c.user_message.getD ""

/-- The answer passed to the evaluate tool (`conv['bot_response']`). -/
def aOf (c : PyConv) : String := c.bot_response.getD ""

/-- The conversation id (`conv['id']`). -/
def iOf (c : PyConv) : String := c.id.getD ""

/-- The score field of the (normalized) evaluate result for a
conversation. -/
def scOf (T : ToolBehaviors) (c : PyConv) : Option Int := (evalRes T (qOf c) (aOf c)).score

/-- The comment field of the (normalized) evaluate result for a
conversation. -/
def cmOf (T : ToolBehaviors) (c : PyConv) : Option String := (evalRes T (qOf c) (aOf c)).comment

/-- A well-formed conversation whose evaluation succeeds with a complete
result: all dict keys present, `success = true`, and the score and
comment fields populated. -/
def wfConv (T : ToolBehaviors) (c : PyConv) : Prop :=
  c.user_message.isSome = true ∧ c.bot_response.isSome = true ∧ c.id.isSome = true ∧
  (evalRes T (qOf c) (aOf c)).success = true ∧
  (scOf T c).isSome = true ∧ (cmOf T c).isSome = true

instance decidableWfConv (T : ToolBehaviors) (c : PyConv) : Decidable (wfConv T c) :=
  inferInstanceAs (Decidable (_ = true ∧ _ = true ∧ _ = true ∧ _ = true ∧ _ = true ∧ _ = true))

/-- The `scores` list collected by the evaluation loop when every
evaluation succeeds. -/
def scoresOf (T : ToolBehaviors) (convs : List PyConv) : List (Option Int) :=
  convs.map (scOf T)

/-- The sum of the collected scores. -/
def totalOf (T : ToolBehaviors) (convs : List PyConv) : Int :=
  (convs.map (fun c => (scOf T c).getD 0)).sum

/-- The average score, `sum(scores) / len(scores)`. -/
def avgOf (T : ToolBehaviors) (convs : List PyConv) : ℚ :=
  (totalOf T convs : ℚ) / (convs.length : ℚ)

/-- The `evaluations` list collected by the evaluation loop when every
evaluation succeeds. -/
def recsOf (T : ToolBehaviors) (convs : List PyConv) : List EvalRec :=
  convs.map (fun c => ⟨iOf c, scOf T c, cmOf T c⟩)

/-- The per-evaluation transcript lines (score line and truncated
comment line per conversation). -/
def elinesOf (T : ToolBehaviors) (convs : List PyConv) : List OutLine :=
  convs.flatMap (fun c =>
    [OutLine.scoreLine (iOf c) (scOf T c), OutLine.commentLine (((cmOf T c).getD "").take 100)])

/-- The evaluate-tool invocations of a run, one per conversation in
order. -/
def evalEventsOf (convs : List PyConv) : List Event :=
  convs.map (fun c => Event.evalCall (qOf c) (aOf c))

/-- The normalized result of the mutation call. -/
def prOf (T : ToolBehaviors) (pt : String) (r : Reason) : ToolResult :=
  mcpCall (T.submit_prompt_update pt r) "submit_prompt_update"

/-- The transcript line reporting the mutation call's outcome. -/
def prLineOf (T : ToolBehaviors) (pt : String) (r : Reason) : OutLine :=
  if (prOf T pt r).success then OutLine.prCreated (prOf T pt r).pr_url
  else OutLine.prCreateError (prOf T pt r).error

/-- The automated-update reason built at `planner_agent.py` line 349. -/
def reasonAuto (T : ToolBehaviors) (convs : List PyConv) : Reason :=
  Reason.automated (avgOf T convs) ((scoresOf T convs).filter optLt3).length

/-- Evaluation loop on well-formed, all-successful conversations: one
evaluate call per conversation, collecting all scores and records in
order. -/
theorem evalLoop_all_ok (T : ToolBehaviors) (convs : List PyConv)
    (h : ∀ c ∈ convs, wfConv T c) :
    evalLoop T convs = (evalEventsOf convs, .ok (scoresOf T convs, recsOf T convs)) := by
  induction convs with
  | nil => rfl
  | cons c rest ih =>
    obtain ⟨h1, h2, h3, h4, h5, h6⟩ := h c (List.mem_cons_self c rest)
    obtain ⟨q, hq⟩ := Option.isSome_iff_exists.mp h1
    obtain ⟨a, ha⟩ := Option.isSome_iff_exists.mp h2
    obtain ⟨i, hi⟩ := Option.isSome_iff_exists.mp h3
    have hrest := ih (fun x hx => h x (List.mem_cons_of_mem c hx))
    have hq' : qOf c = q := by simp [qOf, hq]
    have ha' : aOf c = a := by simp [aOf, ha]
    have hi' : iOf c = i := by simp [iOf, hi]
    rw [hq', ha'] at h4
    simp [evalLoop, hq, ha, hi, hrest, h4, evalEventsOf, scoresOf, recsOf, scOf, cmOf,
      hq', ha', hi']

/-- A list of present optional scores sums to the sum of their values. -/
theorem sumScores_all_some (l : List (Option Int)) (h : ∀ x ∈ l, x.isSome = true) :
    sumScores l = .ok (l.map (fun x => x.getD 0)).sum := by
  induction l with
  | nil => rfl
  | cons x rest ih =>
    obtain ⟨v, hv⟩ := Option.isSome_iff_exists.mp (h x (List.mem_cons_self x rest))
    have hrest := ih (fun y hy => h y (List.mem_cons_of_mem x hy))
    simp [hv, sumScores, hrest]

/-- The individual-score display succeeds on complete evaluation
records, producing the per-evaluation lines. -/
theorem evalLines_recsOf (T : ToolBehaviors) (convs : List PyConv)
    (h : ∀ c ∈ convs, wfConv T c) :
    evalLines (recsOf T convs) = .ok (elinesOf T convs) := by
  induction convs with
  | nil => rfl
  | cons c rest ih =>
    obtain ⟨-, -, -, -, -, h6⟩ := h c (List.mem_cons_self c rest)
    obtain ⟨cm, hcm⟩ := Option.isSome_iff_exists.mp h6
    have hrest := ih (fun x hx => h x (List.mem_cons_of_mem c hx))
    simp only [recsOf, elinesOf] at hrest
    simp [recsOf, elinesOf, evalLines, hcm, hrest]

/-- Full characterization of a review-path run on well-formed data: the
run queries, evaluates every conversation, prints the average and the
per-item lines, and then either performs the mutation call (when the
decision predicate holds) or reports that scores are good. -/
theorem execute_goal_review_run (T : ToolBehaviors) (goal : String)
    (custom_prompt custom_prompt_override : Option String) (qr : ToolResult)
    (hnd : is_direct_pr (goalLower goal) = false)
    (hdisp : hasDispKw (goalLower goal) = false)
    (hrev : hasReviewKw (goalLower goal) = true)
    (hq : T.query_conversations (extractLimit goal) = .ok qr)
    (hqs : qr.success = true)
    (hwf : ∀ c ∈ qr.conversations, wfConv T c)
    (hne : qr.conversations ≠ []) :
    execute_goal T goal custom_prompt custom_prompt_override =
      (if should_create_pr_of (goalLower goal) (scoresOf T qr.conversations)
          (avgOf T qr.conversations) then
        ⟨OutLine.retrieved qr.conversations.length :: OutLine.evalHeader ::
            OutLine.avgLine (avgOf T qr.conversations) ::
            (elinesOf T qr.conversations ++
              [prLineOf T (prompt_of custom_prompt_override custom_prompt)
                (reasonAuto T qr.conversations)]),
         Event.queryCall (extractLimit goal) ::
            (evalEventsOf qr.conversations ++
              [Event.githubCall (prompt_of custom_prompt_override custom_prompt)
                (reasonAuto T qr.conversations)])⟩
      else
        ⟨OutLine.retrieved qr.conversations.length :: OutLine.evalHeader ::
            OutLine.avgLine (avgOf T qr.conversations) ::
            (elinesOf T qr.conversations ++ [OutLine.scoresGood]),
         Event.queryCall (extractLimit goal) :: evalEventsOf qr.conversations⟩) := by
  have hloop := evalLoop_all_ok T qr.conversations hwf
  have hscores : ∀ x ∈ scoresOf T qr.conversations, x.isSome = true := by
    intro x hx
    obtain ⟨c, hc, hxc⟩ := List.mem_map.mp hx
    obtain ⟨-, -, -, -, h5, -⟩ := hwf c hc
    rw [← hxc]
    exact h5
  have hsum := sumScores_all_some _ hscores
  have hmapmap : (scoresOf T qr.conversations).map (fun x => x.getD 0) =
      qr.conversations.map (fun c => (scOf T c).getD 0) := by
    simp [scoresOf, List.map_map, Function.comp]
  have hlines := evalLines_recsOf T qr.conversations hwf
  have hlen : (scoresOf T qr.conversations).length = qr.conversations.length := by
    simp [scoresOf]
  have hne2 : (scoresOf T qr.conversations).isEmpty = false := by
    cases hc : qr.conversations with
    | nil => exact absurd hc hne
    | cons c rest => simp [scoresOf, hc]
  rw [hmapmap] at hsum
  simp only [execute_goal, hnd, Bool.false_eq_true, if_false, hq, mcpCall, hqs, Bool.not_true,
    hdisp, hrev, if_true, hloop, hne2, hsum, hlines, hlen]
  simp [avgOf, totalOf, prLineOf, prOf, reasonAuto, mcpCall]

/-- Whether an event is a `submit_prompt_update` invocation. -/
def isGithubCall : Event → Bool
  | Event.githubCall _ _ => true
  | _ => false

/-- Evaluate-tool invocations are never mutation invocations. -/
theorem evalEvents_no_github (convs : List PyConv) :
    (evalEventsOf convs).any isGithubCall = false := by
  induction convs with
  | nil => rfl
  | cons c rest _ih => simp [evalEventsOf, isGithubCall]

/-- Characterization corollary: on a well-formed review run, a mutation
invocation appears in the event trace exactly when the create-PR
decision predicate holds. -/
theorem any_github_review_run (T : ToolBehaviors) (goal : String)
    (custom_prompt custom_prompt_override : Option String) (qr : ToolResult)
    (hnd : is_direct_pr (goalLower goal) = false)
    (hdisp : hasDispKw (goalLower goal) = false)
    (hrev : hasReviewKw (goalLower goal) = true)
    (hq : T.query_conversations (extractLimit goal) = .ok qr)
    (hqs : qr.success = true)
    (hwf : ∀ c ∈ qr.conversations, wfConv T c)
    (hne : qr.conversations ≠ []) :
    (execute_goal T goal custom_prompt custom_prompt_override).events.any isGithubCall =
      should_create_pr_of (goalLower goal) (scoresOf T qr.conversations)
        (avgOf T qr.conversations) := by
  rw [execute_goal_review_run T goal custom_prompt custom_prompt_override qr hnd hdisp hrev hq
    hqs hwf hne]
  by_cases hpr : should_create_pr_of (goalLower goal) (scoresOf T qr.conversations)
      (avgOf T qr.conversations) = true
  · simp [hpr, List.any_append, isGithubCall]
  · simp only [Bool.not_eq_true] at hpr
    simp [hpr, evalEvents_no_github, isGithubCall]

/-- Claim C4, amended: when the goal carries no recognized custom
threshold clause and no explicit mutation phrase, the planner's
aggregate trigger for the create-mutation decision is
average < 3.5 — not 3.0 — while it is the hybrid example's decision
node `check_update_needed` that defaults to threshold 3.0 (second
conjunct).  The concrete Scenario A (all scores 4, average 4.0 ≥ 3.5)
still yields no mutation (see the witness). -/
theorem c4_aggregate_threshold_is_3_5 (T : ToolBehaviors) (goal : String)
    (custom_prompt custom_prompt_override : Option String) (qr : ToolResult)
    (hnd : is_direct_pr (goalLower goal) = false)
    (hdisp : hasDispKw (goalLower goal) = false)
    (hrev : hasReviewKw (goalLower goal) = true)
    (hq : T.query_conversations (extractLimit goal) = .ok qr)
    (hqs : qr.success = true)
    (hwf : ∀ c ∈ qr.conversations, wfConv T c)
    (hne : qr.conversations ≠ [])
    (hth : scanThreshold (goalLower goal) = none)
    (hup : hasSub "update prompt".data (goalLower goal) = false)
    (hcp : hasSub "create pr".data (goalLower goal) = false)
    (hpl : hasSub "pull request".data (goalLower goal) = false) :
    (((execute_goal T goal custom_prompt custom_prompt_override).events.any isGithubCall = true) ↔
      avgOf T qr.conversations < 7 / 2) ∧
    (∀ avg : ℚ, check_update_needed (some avg) none (some false) = decide (avg < 3)) := by
  constructor
  · rw [execute_goal_review_run T goal custom_prompt custom_prompt_override qr hnd hdisp hrev hq
      hqs hwf hne]
    have hdec : should_create_pr_of (goalLower goal) (scoresOf T qr.conversations)
        (avgOf T qr.conversations) = decide (avgOf T qr.conversations < 7 / 2) := by
      simp [should_create_pr_of, hth, defaultDecision, hup, hcp, hpl]
    by_cases hpr : avgOf T qr.conversations < 7 / 2
    · simp [hdec, hpr, List.any_append, isGithubCall]
    · simp [hdec, hpr, evalEvents_no_github, isGithubCall]
  · intro avg
    simp [check_update_needed]

/-- Scenario A conversations. -/
def convsA : List PyConv :=
  [⟨some "conv_001", some "qa1", some "aa1", some "t"⟩,
   ⟨some "conv_002", some "qa2", some "aa2", some "t"⟩,
   ⟨some "conv_003", some "qa3", some "aa3", some "t"⟩,
   ⟨some "conv_004", some "qa4", some "aa4", some "t"⟩,
   ⟨some "conv_005", some "qa5", some "aa5", some "t"⟩]

/-- Scenario A tools: every evaluation scores 4. -/
def TA : ToolBehaviors where
  query_conversations := fun _ => .ok { success := true, conversations := convsA }
  evaluate_response := fun _ _ =>
    .ok { success := true, score := some 4, comment := some "good answer" }
  submit_prompt_update := fun _ _ => .ok { success := true, pr_url := some "u" }

/-- Two conversations whose evaluations both score 3 (average 3.0). -/
def convsD : List PyConv :=
  [⟨some "cd1", some "qd1", some "ad1", some "t"⟩,
   ⟨some "cd2", some "qd2", some "ad2", some "t"⟩]

/-- Tools delivering `convsD` with every evaluation scoring 3. -/
def Tavg3 : ToolBehaviors where
  query_conversations := fun _ => .ok { success := true, conversations := convsD }
  evaluate_response := fun _ _ => .ok { success := true, score := some 3, comment := some "ok" }
  submit_prompt_update := fun _ _ => .ok { success := true, pr_url := some "u" }

/-- Claim C4, counterexample.  The claim states the default aggregate
trigger is average < 3.0, so average 3.0 must not trigger a mutation.
On goal `"review 2 chats"` (no threshold phrase, no mutation phrase)
with both scores 3 — average exactly 3.0 — the run nevertheless invokes
`submit_prompt_update`, because the code's default threshold is 3.5. -/
theorem c4_counterexample :
    (execute_goal Tavg3 "review 2 chats" none none).events.any isGithubCall = true := by
  rw [any_github_review_run Tavg3 "review 2 chats" none none
    { success := true, conversations := convsD } rfl rfl rfl rfl rfl (by decide) (by decide)]
  show should_create_pr_of (goalLower "review 2 chats") (scoresOf Tavg3 convsD)
    (avgOf Tavg3 convsD) = true
  have havg : avgOf Tavg3 convsD = 3 := by
    have ht : totalOf Tavg3 convsD = 6 := by decide
    have hl : convsD.length = 2 := rfl
    rw [avgOf, ht, hl]
    norm_num
  have hth : scanThreshold (goalLower "review 2 chats") = none := rfl
  have h1 : hasSub "update prompt".data (goalLower "review 2 chats") = false := rfl
  have h2 : hasSub "create pr".data (goalLower "review 2 chats") = false := rfl
  have h3 : hasSub "pull request".data (goalLower "review 2 chats") = false := rfl
  simp [should_create_pr_of, hth, defaultDecision, havg, h1, h2, h3]
  norm_num

/-- Claim C4, witness: the amended theorem applied at Scenario A —
average 4.0, not below 3.5, hence no mutation event. -/
theorem c4_witness :
    (((execute_goal TA "Review the last 5 conversations" none none).events.any isGithubCall = true) ↔
      avgOf TA convsA < 7 / 2) ∧
    (execute_goal TA "Review the last 5 conversations" none none).events.any isGithubCall = false := by
  have h := c4_aggregate_threshold_is_3_5 TA "Review the last 5 conversations" none none
    { success := true, conversations := convsA } rfl rfl rfl rfl rfl (by decide) (by decide)
    rfl rfl rfl rfl
  have havg : avgOf TA convsA = 4 := by
    have ht : totalOf TA convsA = 20 := by decide
    have hl : convsA.length = 5 := rfl
    rw [avgOf, ht, hl]
    norm_num
  refine ⟨h.1, ?_⟩
  cases hb : (execute_goal TA "Review the last 5 conversations" none none).events.any isGithubCall
  · rfl
  · have hlt : avgOf TA convsA < 7 / 2 := h.1.mp hb
    rw [havg] at hlt
    norm_num at hlt

/-- Tools whose query endpoint returns an empty conversation set. -/
def T5 : ToolBehaviors where
  query_conversations := fun _ => .ok { success := true, conversations := [] }
  evaluate_response := fun _ _ => .ok { success := true, score := some 3, comment := some "ok" }
  submit_prompt_update := fun _ _ => .ok { success := true, pr_url := some "u" }

/-- Claim C5, counterexample.  The claim states that with an empty
conversation set the average is 0, which is below any positive
threshold, so the decision step triggers mutation for a non-pure-read
intent.  On the review-and-update goal
`"review 3 chats and update prompt"` with zero conversations, the
planner instead skips the decision step entirely (`if scores:` is
false): the run performs no mutation call and appends no decision line
— no average is ever computed. -/
theorem c5_counterexample :
    execute_goal T5 "review 3 chats and update prompt" none none =
      ⟨[OutLine.retrieved 0], [Event.queryCall 3]⟩ :=
  rfl

/-- Claim C5, amended: the aggregate is `sum(S)/len(S)` for non-empty
score lists, and the hybrid example's `evaluate_responses` defines the
empty average as 0; but in the planner an empty conversation/score set
skips the decision step entirely — the run ends after the retrieval
line with no mutation and no decision, regardless of the intent. -/
theorem c5_average_formula_and_empty_skip :
    hybrid_average [] = 0 ∧
    (∀ l : List Int, l ≠ [] → hybrid_average l = (l.sum : ℚ) / (l.length : ℚ)) ∧
    (∀ (T : ToolBehaviors) (goal : String) (cp cpo : Option String) (qr : ToolResult),
      is_direct_pr (goalLower goal) = false →
      hasDispKw (goalLower goal) = false →
      hasReviewKw (goalLower goal) = true →
      T.query_conversations (extractLimit goal) = .ok qr →
      qr.success = true →
      qr.conversations = [] →
      execute_goal T goal cp cpo =
        ⟨[OutLine.retrieved 0], [Event.queryCall (extractLimit goal)]⟩) := by
  refine ⟨rfl, ?_, ?_⟩
  · intro l hl
    cases l with
    | nil => exact absurd rfl hl
    | cons x xs => simp [hybrid_average]
  · intro T goal cp cpo qr hnd hdisp hrev hq hqs hc
    simp [execute_goal, hnd, hdisp, hrev, hq, hqs, hc, mcpCall, evalLoop]

/-- Claim C5, witness: the empty-skip part applied at a plain review
goal with an empty conversation set, and the average formula at
`[2, 3, 4]`. -/
theorem c5_witness :
    execute_goal T5 "review 3 chats" none none =
      ⟨[OutLine.retrieved 0], [Event.queryCall 3]⟩ ∧
    hybrid_average [2, 3, 4] = ((9 : Int) : ℚ) / ((3 : Nat) : ℚ) :=
  ⟨c5_average_formula_and_empty_skip.2.2 T5 "review 3 chats" none none
    { success := true, conversations := [] } rfl rfl rfl rfl rfl rfl,
   c5_average_formula_and_empty_skip.2.1 [2, 3, 4] (by decide)⟩

/-- Four conversations whose evaluations score 1, 5, 5, 5 (average 4.0,
one score below 2). -/
def convsB : List PyConv :=
  [⟨some "cb1", some "qb1", some "ab1", some "t"⟩,
   ⟨some "cb2", some "qb2", some "ab2", some "t"⟩,
   ⟨some "cb3", some "qb3", some "ab3", some "t"⟩,
   ⟨some "cb4", some "qb4", some "ab4", some "t"⟩]

/-- Tools delivering `convsB`, scoring 1 for the first conversation and
5 for the rest. -/
def T6 : ToolBehaviors where
  query_conversations := fun _ => .ok { success := true, conversations := convsB }
  evaluate_response := fun q _ =>
    .ok { success := true, score := some (if q = "qb1" then 1 else 5), comment := some "c" }
  submit_prompt_update := fun _ _ => .ok { success := true, pr_url := some "u" }

/-- Claim C6, counterexample.  The claim states that every goal
containing an explicit `"if score(s) is/are below N"` clause yields a
per-item hard threshold.  The goal
`"check 4 chats if score is below 2"` contains exactly such a clause
(N = 2) and one score (1) is below 2, so the claim requires a mutation;
but the code's pattern `if\s+(?:any|average|avg)?\s+score\s+...`
cannot match `"if score"` with a single space (the two `\s+` need the
optional word or at least two whitespace characters), so no threshold is
extracted, the average 4.0 is not below 3.5, and the run performs no
mutation call. -/
theorem c6_counterexample :
    scanThreshold (goalLower "check 4 chats if score is below 2") = none ∧
    (execute_goal T6 "check 4 chats if score is below 2" none none).events.any isGithubCall =
      false := by
  refine ⟨rfl, ?_⟩
  rw [any_github_review_run T6 "check 4 chats if score is below 2" none none
    { success := true, conversations := convsB } rfl rfl rfl rfl rfl (by decide) (by decide)]
  show should_create_pr_of (goalLower "check 4 chats if score is below 2")
    (scoresOf T6 convsB) (avgOf T6 convsB) = false
  have havg : avgOf T6 convsB = 4 := by
    have ht : totalOf T6 convsB = 16 := by decide
    have hl : convsB.length = 4 := rfl
    rw [avgOf, ht, hl]
    norm_num
  have hth : scanThreshold (goalLower "check 4 chats if score is below 2") = none := rfl
  have h1 : hasSub "update prompt".data (goalLower "check 4 chats if score is below 2") = false := rfl
  have h2 : hasSub "create pr".data (goalLower "check 4 chats if score is below 2") = false := rfl
  have h3 : hasSub "pull request".data (goalLower "check 4 chats if score is below 2") = false := rfl
  simp [should_create_pr_of, hth, defaultDecision, havg, h1, h2, h3]
  norm_num

/-- Claim C6, amended: the per-item hard threshold is extracted only
when the clause matches the code's pattern — `if`, then either one of
the words `any`/`average`/`avg` between whitespace or at least two
whitespace characters, then `score` (singular, whitespace-terminated),
optional `is`, `below` or `<`, and the number.  When such a clause is
recognized (and its value is nonzero) and at least one collected score
is strictly below it, the decision step requires mutation even when the
average is not below the aggregate threshold. -/
theorem c6_per_item_threshold (T : ToolBehaviors) (goal : String)
    (custom_prompt custom_prompt_override : Option String) (qr : ToolResult) (t : ℚ)
    (hnd : is_direct_pr (goalLower goal) = false)
    (hdisp : hasDispKw (goalLower goal) = false)
    (hrev : hasReviewKw (goalLower goal) = true)
    (hq : T.query_conversations (extractLimit goal) = .ok qr)
    (hqs : qr.success = true)
    (hwf : ∀ c ∈ qr.conversations, wfConv T c)
    (hne : qr.conversations ≠ [])
    (hth : scanThreshold (goalLower goal) = some t)
    (ht0 : t ≠ 0)
    (hbelow : ∃ c ∈ qr.conversations, ((scOf T c).getD 0 : ℚ) < t) :
    (execute_goal T goal custom_prompt custom_prompt_override).events.any isGithubCall = true := by
  rw [any_github_review_run T goal custom_prompt custom_prompt_override qr hnd hdisp hrev hq
    hqs hwf hne]
  have hany : (scoresOf T qr.conversations).any (fun s => optLtQ s t) = true := by
    obtain ⟨c, hc, hlt⟩ := hbelow
    obtain ⟨-, -, -, -, h5, -⟩ := hwf c hc
    obtain ⟨v, hv⟩ := Option.isSome_iff_exists.mp h5
    refine List.any_eq_true.mpr ⟨scOf T c, List.mem_map_of_mem _ hc, ?_⟩
    rw [hv] at hlt ⊢
    simp only [Option.getD_some] at hlt
    simp [optLtQ, hlt]
  simp [should_create_pr_of, hth, ht0, hany]

/-- Claim C6, witness: the amended theorem applied at the goal
`"check 4 chats if any score is below 2"` (which the pattern does
recognize) with scores 1, 5, 5, 5 — the average 4.0 is acceptable but
the below-threshold score 1 forces the mutation call. -/
theorem c6_witness :
    (execute_goal T6 "check 4 chats if any score is below 2" none none).events.any isGithubCall =
      true :=
  c6_per_item_threshold T6 "check 4 chats if any score is below 2" none none
    { success := true, conversations := convsB } 2 rfl rfl rfl rfl rfl (by decide) (by decide)
    rfl (by norm_num) (by decide)

/-- Shared characterization of the evaluation loop on conversations
with all dict keys present but arbitrary tool outcomes: the evaluate
tool is called once per conversation in order, and the scores and
records collected are exactly those of the conversations whose
evaluation returned success. -/
theorem evalLoop_filter (T : ToolBehaviors) (convs : List PyConv)
    (h : ∀ c ∈ convs, c.user_message.isSome = true ∧ c.bot_response.isSome = true ∧
      c.id.isSome = true) :
    evalLoop T convs =
      (evalEventsOf convs,
       .ok (scoresOf T (convs.filter fun c => (evalRes T (qOf c) (aOf c)).success),
            recsOf T (convs.filter fun c => (evalRes T (qOf c) (aOf c)).success))) := by
  induction convs with
  | nil => rfl
  | cons c rest ih =>
    obtain ⟨h1, h2, h3⟩ := h c (List.mem_cons_self c rest)
    obtain ⟨q, hq⟩ := Option.isSome_iff_exists.mp h1
    obtain ⟨a, ha⟩ := Option.isSome_iff_exists.mp h2
    obtain ⟨i, hi⟩ := Option.isSome_iff_exists.mp h3
    have hrest := ih (fun x hx => h x (List.mem_cons_of_mem c hx))
    have hq' : qOf c = q := by simp [qOf, hq]
    have ha' : aOf c = a := by simp [aOf, ha]
    have hi' : iOf c = i := by simp [iOf, hi]
    by_cases hs : (evalRes T q a).success = true
    · have hsc : (evalRes T (qOf c) (aOf c)).success = true := by rw [hq', ha']; exact hs
      simp [evalLoop, hq, ha, hi, hs, hrest, evalEventsOf, scoresOf, recsOf,
        List.filter_cons, hsc, hq', ha', hi', scOf, cmOf]
    · have hsF : (evalRes T q a).success = false := Bool.eq_false_iff.mpr hs
      have hsc : (evalRes T (qOf c) (aOf c)).success = false := by rw [hq', ha']; exact hsF
      simp [evalLoop, hq, ha, hsF, hrest, evalEventsOf, scoresOf, recsOf,
        List.filter_cons, hsc, hq', ha']

/-- Claim C8, amended part proved: when the evaluate tool fails for some
conversations, those items are skipped — their scores and records are
excluded — while the loop still calls the tool for every conversation
in order (the batch continues).  The collected records, from which all
per-item transcript lines are built, cover only the successful items,
so the failure leaves no visible line in the returned transcript (see
the counterexample for the transcript of a concrete failing run). -/
theorem c8_eval_failure_skipped (T : ToolBehaviors) (convs : List PyConv)
    (h : ∀ c ∈ convs, c.user_message.isSome = true ∧ c.bot_response.isSome = true ∧
      c.id.isSome = true) :
    (evalLoop T convs).1 = evalEventsOf convs ∧
    (evalLoop T convs).2 =
      .ok (scoresOf T (convs.filter fun c => (evalRes T (qOf c) (aOf c)).success),
           recsOf T (convs.filter fun c => (evalRes T (qOf c) (aOf c)).success)) := by
  rw [evalLoop_filter T convs h]
  exact ⟨rfl, rfl⟩

/-- Whether an output line refers to the given conversation id. -/
def mentionsConv (cid : String) : OutLine → Bool
  | OutLine.convHeader i _ => i = cid
  | OutLine.scoreLine i _ => i = cid
  | _ => false

/-- Whether an output line reports any error. -/
def isErrorLine : OutLine → Bool
  | OutLine.errorFetching _ => true
  | OutLine.goalError _ => true
  | OutLine.prCreateError _ => true
  | _ => false

/-- Two conversations; the evaluation of the first fails. -/
def convsE : List PyConv :=
  [⟨some "ce1", some "qe1", some "ae1", some "t"⟩,
   ⟨some "ce2", some "qe2", some "ae2", some "t"⟩]

/-- Tools delivering `convsE`, failing the evaluation of `qe1` and
scoring 4 for the rest. -/
def T8 : ToolBehaviors where
  query_conversations := fun _ => .ok { success := true, conversations := convsE }
  evaluate_response := fun q _ =>
    if q = "qe1" then .ok { success := false, error := some "Bedrock throttled" }
    else .ok { success := true, score := some 4, comment := some "good" }
  submit_prompt_update := fun _ _ => .ok { success := true, pr_url := some "u" }

set_option maxRecDepth 8192 in
/-- Claim C8, counterexample.  The claim states that a per-item
evaluation failure produces a visible line in the run transcript.  In
this run the evaluation of `ce1` fails (the event trace shows its
evaluate call happened), the batch continues and the average covers
only the surviving score — but the returned transcript contains no
line mentioning `ce1` and no error line of any kind: the failure is
silently dropped. -/
theorem c8_counterexample :
    execute_goal T8 "review 2 chats" none none =
      ⟨[OutLine.retrieved 2, OutLine.evalHeader, OutLine.avgLine 4,
        OutLine.scoreLine "ce2" (some 4), OutLine.commentLine "good", OutLine.scoresGood],
       [Event.queryCall 2, Event.evalCall "qe1" "ae1", Event.evalCall "qe2" "ae2"]⟩ ∧
    (∀ l ∈ (execute_goal T8 "review 2 chats" none none).ret,
      mentionsConv "ce1" l = false ∧ isErrorLine l = false) := by
  have hnd : is_direct_pr (goalLower "review 2 chats") = false := rfl
  have hdisp : hasDispKw (goalLower "review 2 chats") = false := rfl
  have hrev : hasReviewKw (goalLower "review 2 chats") = true := rfl
  have hlim : extractLimit "review 2 chats" = 2 := rfl
  have hq : T8.query_conversations 2 = Except.ok { success := true, conversations := convsE } :=
    rfl
  have hloop : evalLoop T8 convsE =
      ([Event.evalCall "qe1" "ae1", Event.evalCall "qe2" "ae2"],
       .ok ([some 4], [⟨"ce2", some 4, some "good"⟩])) := rfl
  have hth : scanThreshold (goalLower "review 2 chats") = none := rfl
  have h1 : hasSub "update prompt".data (goalLower "review 2 chats") = false := rfl
  have h2 : hasSub "create pr".data (goalLower "review 2 chats") = false := rfl
  have h3 : hasSub "pull request".data (goalLower "review 2 chats") = false := rfl
  have htake : ("good" : String).take 100 = "good" := rfl
  have hlen : convsE.length = 2 := rfl
  have hrun : execute_goal T8 "review 2 chats" none none =
      ⟨[OutLine.retrieved 2, OutLine.evalHeader, OutLine.avgLine 4,
        OutLine.scoreLine "ce2" (some 4), OutLine.commentLine "good", OutLine.scoresGood],
       [Event.queryCall 2, Event.evalCall "qe1" "ae1", Event.evalCall "qe2" "ae2"]⟩ := by
    norm_num [execute_goal, hnd, hdisp, hrev, hlim, hq, mcpCall, hloop, sumScores, evalLines,
      should_create_pr_of, hth, defaultDecision, h1, h2, h3, htake, hlen]
  refine ⟨hrun, ?_⟩
  rw [hrun]
  decide

/-- Claim C8, witness: the theorem applied at the concrete mixed run —
both conversations are evaluated, the failing one contributes neither a
score nor a record. -/
theorem c8_witness :
    (evalLoop T8 convsE).1 = evalEventsOf convsE ∧
    (evalLoop T8 convsE).2 =
      .ok (scoresOf T8 (convsE.filter fun c => (evalRes T8 (qOf c) (aOf c)).success),
           recsOf T8 (convsE.filter fun c => (evalRes T8 (qOf c) (aOf c)).success)) :=
  c8_eval_failure_skipped T8 convsE (by decide)

/-!
## Claim C7: characterization of the count extraction
-/

/-- Helper: `takeWhile` passes through a block satisfying the
predicate. -/
theorem takeWhile_append_of_forall {p : Char → Bool} :
    ∀ (l1 l2 : List Char), (∀ c ∈ l1, p c = true) →
      (l1 ++ l2).takeWhile p = l1 ++ l2.takeWhile p := by
  intro l1
  induction l1 with
  | nil => intro l2 _; rfl
  | cons c l1 ih =>
    intro l2 h
    have hc := h c (List.mem_cons_self c l1)
    simp [List.takeWhile_cons_of_pos hc, ih l2 (fun x hx => h x (List.mem_cons_of_mem c hx))]

/-- Helper: `dropWhile` skips a block satisfying the predicate. -/
theorem dropWhile_append_of_forall {p : Char → Bool} :
    ∀ (l1 l2 : List Char), (∀ c ∈ l1, p c = true) →
      (l1 ++ l2).dropWhile p = l2.dropWhile p := by
  intro l1
  induction l1 with
  | nil => intro l2 _; rfl
  | cons c l1 ih =>
    intro l2 h
    have hc := h c (List.mem_cons_self c l1)
    simp [List.dropWhile_cons_of_pos hc, ih l2 (fun x hx => h x (List.mem_cons_of_mem c hx))]

/-- Whitespace characters are not digits. -/
theorem isSp_not_isDig (c : Char) (h : isSp c = true) : isDig c = false := by
  simp [isSp] at h
  rcases h with ((((h | h) | h) | h) | h) | h <;> subst h <;> rfl

/-- A successful literal match is exactly a prefix decomposition. -/
theorem stripLit_isSome_iff : ∀ (p cs : List Char),
    (stripLit p cs).isSome = true ↔ ∃ r, cs = p ++ r := by
  intro p
  induction p with
  | nil =>
    intro cs
    simp [stripLit]
  | cons l ls ih =>
    intro cs
    cases cs with
    | nil =>
      simp only [stripLit, Option.isSome_none]
      constructor
      · intro h; simp at h
      · rintro ⟨r, hr⟩; exact absurd hr (by simp)
    | cons c cs2 =>
      simp only [stripLit]
      by_cases hc : c = l
      · subst hc
        rw [if_pos rfl, ih cs2]
        constructor
        · rintro ⟨r, hr⟩
          exact ⟨r, by rw [hr]; rfl⟩
        · rintro ⟨r, hr⟩
          injection hr with h1 h2
          exact ⟨r, h2⟩
      · rw [if_neg hc]
        constructor
        · intro h; simp at h
        · rintro ⟨r, hr⟩
          injection hr with h1 h2
          exact absurd h1 hc

/-- The spec-side reading of the count phrase: at this position the text
decomposes into a nonempty digit run, a nonempty whitespace run, and a
tail beginning with `chat` or `conversation`; `n` is the value of the
digit run. -/
def CountPhrase (cs : List Char) (n : Nat) : Prop :=
  ∃ ds ws rest, cs = ds ++ ws ++ rest ∧ ds ≠ [] ∧ (∀ c ∈ ds, isDig c = true) ∧
    ws ≠ [] ∧ (∀ c ∈ ws, isSp c = true) ∧
    ((∃ r2, rest = "chat".data ++ r2) ∨ (∃ r2, rest = "conversation".data ++ r2)) ∧
    n = digitsToNat ds

/-- The anchored matcher recognizes exactly the count-phrase
decompositions. -/
theorem countMatch_eq_some_iff (cs : List Char) (n : Nat) :
    countMatch cs = some n ↔ CountPhrase cs n := by
  constructor
  · intro h
    by_cases h1 : (cs.takeWhile isDig).isEmpty = true
    · simp [countMatch, h1] at h
    · by_cases h2 : ((cs.dropWhile isDig).takeWhile isSp).isEmpty = true
      · simp [countMatch, h1, h2] at h
      · by_cases h3 : ((stripLit "chat".data ((cs.dropWhile isDig).dropWhile isSp)).isSome ||
            (stripLit "conversation".data ((cs.dropWhile isDig).dropWhile isSp)).isSome) = true
        · have hn : n = digitsToNat (cs.takeWhile isDig) := by
            simp [countMatch, h1, h2, h3] at h
            exact h.symm
          refine ⟨cs.takeWhile isDig, (cs.dropWhile isDig).takeWhile isSp,
            (cs.dropWhile isDig).dropWhile isSp, ?_, ?_, ?_, ?_, ?_, ?_, hn⟩
          · rw [List.append_assoc, List.takeWhile_append_dropWhile isSp (cs.dropWhile isDig),
              List.takeWhile_append_dropWhile isDig cs]
          · intro he
            rw [he] at h1
            exact h1 rfl
          · intro c hc
            exact List.mem_takeWhile_imp hc
          · intro he
            rw [he] at h2
            exact h2 rfl
          · intro c hc
            exact List.mem_takeWhile_imp hc
          · rcases Bool.or_eq_true _ _ |>.mp h3 with hkw | hkw
            · exact Or.inl ((stripLit_isSome_iff _ _).mp hkw)
            · exact Or.inr ((stripLit_isSome_iff _ _).mp hkw)
        · simp [countMatch, h1, h2, h3] at h
  · rintro ⟨ds, ws, rest, hcs, hds, hdig, hws, hsp, hkw, hn⟩
    obtain ⟨w, ws2, rfl⟩ : ∃ w ws2, ws = w :: ws2 := by
      cases ws with
      | nil => exact absurd rfl hws
      | cons w ws2 => exact ⟨w, ws2, rfl⟩
    have hwsp := hsp w (List.mem_cons_self w ws2)
    have hwnd : ¬ isDig w = true := by
      rw [isSp_not_isDig w hwsp]
      exact Bool.false_ne_true
    have hrc : ∃ rtail, rest = 'c' :: rtail := by
      rcases hkw with ⟨r2, hr⟩ | ⟨r2, hr⟩
      · exact ⟨"hat".data ++ r2, by rw [hr]; rfl⟩
      · exact ⟨"onversation".data ++ r2, by rw [hr]; rfl⟩
    obtain ⟨rtail, hrt⟩ := hrc
    have hcns : ¬ isSp 'c' = true := by decide
    have htd : cs.takeWhile isDig = ds := by
      rw [hcs, List.append_assoc, takeWhile_append_of_forall ds _ hdig, List.cons_append,
        List.takeWhile_cons_of_neg hwnd, List.append_nil]
    have hdd : cs.dropWhile isDig = w :: (ws2 ++ rest) := by
      rw [hcs, List.append_assoc, dropWhile_append_of_forall ds _ hdig, List.cons_append,
        List.dropWhile_cons_of_neg hwnd]
    have hts : List.takeWhile isSp (w :: (ws2 ++ rest)) = w :: ws2 := by
      rw [← List.cons_append, takeWhile_append_of_forall _ rest hsp, hrt,
        List.takeWhile_cons_of_neg hcns, List.append_nil]
    have hdsp : List.dropWhile isSp (w :: (ws2 ++ rest)) = rest := by
      rw [← List.cons_append, dropWhile_append_of_forall _ rest hsp, hrt,
        List.dropWhile_cons_of_neg hcns]
    have hkwb : ((stripLit "chat".data rest).isSome ||
        (stripLit "conversation".data rest).isSome) = true := by
      rcases hkw with ⟨r2, hr⟩ | ⟨r2, hr⟩
      · have := (stripLit_isSome_iff "chat".data rest).mpr ⟨r2, hr⟩
        simp [this]
      · have := (stripLit_isSome_iff "conversation".data rest).mpr ⟨r2, hr⟩
        simp [this]
    have hdse : ds.isEmpty = false := by
      cases ds with
      | nil => exact absurd rfl hds
      | cons d ds2 => rfl
    simp only [countMatch]
    rw [htd, hdse, hdd, hts, hdsp, hkwb]
    simp [hn]

/-- The scan returns the match of the least matching position. -/
theorem scanCount_eq_of_first : ∀ (i : Nat) (cs : List Char) (n : Nat),
    countMatch (cs.drop i) = some n → (∀ j, j < i → countMatch (cs.drop j) = none) →
    scanCount cs = some n := by
  intro i
  induction i with
  | zero =>
    intro cs n h _
    cases cs with
    | nil => exact absurd h (by simp [countMatch])
    | cons c cs2 =>
      rw [List.drop_zero] at h
      simp [scanCount, h]
  | succ i ih =>
    intro cs n h hmin
    cases cs with
    | nil =>
      rw [List.drop_nil] at h
      exact absurd h (by simp [countMatch])
    | cons c cs2 =>
      have h0 : countMatch (c :: cs2) = none := by
        have := hmin 0 (Nat.succ_pos i)
        rwa [List.drop_zero] at this
      have hdrop : (c :: cs2).drop (i + 1) = cs2.drop i := rfl
      rw [hdrop] at h
      have hmin2 : ∀ j, j < i → countMatch (cs2.drop j) = none := by
        intro j hj
        have := hmin (j + 1) (Nat.succ_lt_succ hj)
        rwa [show (c :: cs2).drop (j + 1) = cs2.drop j from rfl] at this
      simp [scanCount, h0]
      exact ih cs2 n h hmin2

/-- When no position matches, the scan finds nothing. -/
theorem scanCount_eq_none : ∀ (cs : List Char),
    (∀ i, countMatch (cs.drop i) = none) → scanCount cs = none := by
  intro cs
  induction cs with
  | nil => intro _; rfl
  | cons c cs2 ih =>
    intro h
    have h0 : countMatch (c :: cs2) = none := by
      have := h 0
      rwa [List.drop_zero] at this
    have h2 : ∀ i, countMatch (cs2.drop i) = none := by
      intro i
      have := h (i + 1)
      rwa [show (c :: cs2).drop (i + 1) = cs2.drop i from rfl] at this
    simp [scanCount, h0]
    exact ih h2

/-- Positions at or beyond the end never match (the matcher needs a
nonempty digit run). -/
theorem countMatch_none_all (cs : List Char)
    (h : ∀ i, i < cs.length → countMatch (cs.drop i) = none) :
    ∀ i, countMatch (cs.drop i) = none := by
  intro i
  rcases Nat.lt_or_ge i cs.length with hlt | hge
  · exact h i hlt
  · rw [List.drop_eq_nil_of_le hge]
    rfl

/-- Claim C7: for every goal text, if the lowered text contains at
position `i` a count phrase — an integer `n` immediately followed by
whitespace and then `chat` or `conversation` — and no count phrase
starts at any earlier position, then the extracted count is `n` (the
first such integer); and if no position carries a count phrase, the
count defaults to 5. -/
theorem c7_count_extraction (goal : String) :
    (∀ i n, CountPhrase ((goalLower goal).drop i) n →
      (∀ j, j < i → ∀ m, ¬ CountPhrase ((goalLower goal).drop j) m) →
      extractLimit goal = n) ∧
    ((∀ i n, ¬ CountPhrase ((goalLower goal).drop i) n) → extractLimit goal = 5) := by
  constructor
  · intro i n hcp hmin
    have h1 : countMatch ((goalLower goal).drop i) = some n :=
      (countMatch_eq_some_iff _ n).mpr hcp
    have h2 : ∀ j, j < i → countMatch ((goalLower goal).drop j) = none := by
      intro j hj
      cases hcm : countMatch ((goalLower goal).drop j) with
      | none => rfl
      | some m => exact absurd ((countMatch_eq_some_iff _ m).mp hcm) (hmin j hj m)
    unfold extractLimit
    rw [scanCount_eq_of_first i (goalLower goal) n h1 h2]
    rfl
  · intro hno
    have h2 : ∀ i, countMatch ((goalLower goal).drop i) = none := by
      intro i
      cases hcm : countMatch ((goalLower goal).drop i) with
      | none => rfl
      | some m => exact absurd ((countMatch_eq_some_iff _ m).mp hcm) (hno i m)
    unfold extractLimit
    rw [scanCount_eq_none (goalLower goal) h2]
    rfl

/-- Claim C7, witness: the theorem applied at the Scenario B goal (the
first count phrase is `3 chats` at position 15, giving count 3; the
later `3.5` is not followed by `chat`/`conversation`) and at a
phrase-free goal (default 5). -/
theorem c7_witness :
    extractLimit "Check the last 3 chats and update prompt if scores are below 3.5" = 3 ∧
    extractLimit "hello" = 5 := by
  constructor
  · apply (c7_count_extraction "Check the last 3 chats and update prompt if scores are below 3.5").1
      15 3
    · exact ⟨['3'], [' '], "chats and update prompt if scores are below 3.5".data,
        by decide, by decide, by decide, by decide, by decide,
        Or.inl ⟨"s and update prompt if scores are below 3.5".data, by decide⟩, by decide⟩
    · intro j hj m hcp
      have hnone : ∀ j, j < 15 →
          countMatch ((goalLower
            "Check the last 3 chats and update prompt if scores are below 3.5").drop j) =
            none := by decide
      have hsome := (countMatch_eq_some_iff _ m).mpr hcp
      rw [hnone j hj] at hsome
      exact Option.noConfusion hsome
  · apply (c7_count_extraction "hello").2
    intro i n hcp
    have hsome := (countMatch_eq_some_iff _ n).mpr hcp
    have hnone := countMatch_none_all (goalLower "hello") (by decide) i
    rw [hnone] at hsome
    exact Option.noConfusion hsome
